import Mathlib

/-!
# oracle-memory-server: persistence and graph operations

A shallow embedding of `src/oracle-memory-server.js`.

* JavaScript values that travel through `JSON.parse` / `JSON.stringify` are the
  inductive type `Json`.
* The JavaScript runtime functions the program calls (`JSON.stringify(_, null, 2)`,
  `JSON.parse`, `String.prototype.toLowerCase`, the UTF-8 encoding of a written string and
  the conversion of a `Buffer` to a string) are fields of a `Runtime` record that every
  program function receives as its first argument.
* The remote object store and the local file system are an explicit `World` that is
  threaded through every asynchronous function; a rejected promise or a thrown
  exception is `Except.error`, and a `try`/`catch` block is a `match` on the result.
-/

namespace OracleMemory

/-! ## Values -/

/-- JSON documents. Object fields are kept in enumeration order. Numeric leaves never occur
in a graph document; integers are kept so that the falsy number `0` is represented. -/
inductive Json where
  | null : Json
  | bool (b : Bool) : Json
  | num (n : Int) : Json
  | str (s : String) : Json
  | arr (items : List Json) : Json
  | obj (fields : List (String × Json)) : Json

/-- A JavaScript `Error`; only its `message` is observed by the program. -/
structure JsError where
  message : String
deriving DecidableEq

/-- The runtime library functions used by the program. `parse` answers `none` where
`JSON.parse` throws a `SyntaxError`; `utf8Encode` gives the bytes that `req.write(data)`
puts on the wire; `bufferToString` is the conversion applied to a `Buffer` chunk by
`data += chunk`. Bytes are natural numbers below 256. -/
structure Runtime where
  stringify : Json → String
  parse : String → Option Json
  toLowerCase : String → String
  utf8Encode : String → List Nat
  bufferToString : List Nat → String

/-- The literal `{ entities: [], relations: [] }`. -/
def emptyGraph : Json :=
  .obj [("entities", .arr []), ("relations", .arr [])]

/-! ## The world: remote object store and local file -/

/-- What an `https.request` ends with: the `error` event, or a response with a status code
whose body arrives as a sequence of `data` events, one `Buffer` chunk each, before the `end`
event. A `new URL(...)` that throws inside the promise executor (empty `ORACLE_BASE_URL`)
rejects the promise in the same way as the `error` event and is represented by `failure`. -/
inductive HttpOutcome where
  | failure (message : String) : HttpOutcome
  | response (statusCode : Nat) (chunks : List (List Nat)) : HttpOutcome
deriving DecidableEq

/-- The environment of the server.
* `remoteObj`: the bytes stored under `copilot-memory.json`, if any;
* `chunkSizes`: how the network cuts a served body into chunks: the sizes of the successive
  chunks, the last chunk taking what is left;
* `getFault`: when present, the outcome of every GET, whatever is stored; when absent the
  store serves the object (200 with its bytes, or 404);
* `putAnswer`: the outcome of every PUT; the store keeps the body exactly when the answer
  is a 2xx response;
* `putLog`: every body `uploadToOracle` has tried to send so far, most recent last;
* `localFile`: content of `LOCAL_MEMORY_PATH`, `none` when it cannot be read;
* `mkdirOk`, `writeOk`: whether `fs.mkdir` and `fs.writeFile` succeed. A failing
  `fs.writeFile` is taken to leave the file as it was. -/
structure World where
  remoteObj : Option (List Nat)
  chunkSizes : List Nat
  getFault : Option HttpOutcome
  putAnswer : HttpOutcome
  putLog : List (List Nat)
  localFile : Option String
  mkdirOk : Bool
  writeOk : Bool
deriving DecidableEq

/-- Cuts a body into non-empty chunks of the given sizes; what is left after the last size
is one more chunk, and a size of zero is skipped. An empty body has no chunk. -/
def cutChunks : List Nat → List Nat → List (List Nat)
  | _, [] => []
  | [], bytes => [bytes]
  | 0 :: sizes, bytes => cutChunks sizes bytes
  | n :: sizes, bytes => bytes.take n :: cutChunks sizes (bytes.drop n)

/-- Outcome of the GET request issued by `downloadFromOracle`. -/
def remoteGet (w : World) : HttpOutcome :=
  match w.getFault with
  | some o => o
  | none =>
    match w.remoteObj with
    | some bytes => .response 200 (cutChunks w.chunkSizes bytes)
    | none => .response 404 []

/-- Effect and outcome of the PUT request issued by `uploadToOracle`, for the bytes written
to the request. -/
def remotePut (w : World) (bytes : List Nat) : HttpOutcome × World :=
  match w.putAnswer with
  | .failure m => (.failure m, { w with putLog := w.putLog ++ [bytes] })
  | .response status chunks =>
    if 200 ≤ status ∧ status < 300 then
      (.response status chunks,
        { w with remoteObj := some bytes, putLog := w.putLog ++ [bytes] })
    else
      (.response status chunks, { w with putLog := w.putLog ++ [bytes] })

/-- Model of `fs.mkdir(path.dirname(LOCAL_MEMORY_PATH), { recursive: true })`. -/
def fsMkdir (w : World) : Except JsError Unit × World :=
  if w.mkdirOk then (.ok (), w) else (.error ⟨"EACCES: permission denied, mkdir"⟩, w)

/-- Model of `fs.writeFile(LOCAL_MEMORY_PATH, data)`. -/
def fsWriteFile (w : World) (data : String) : Except JsError Unit × World :=
  if w.writeOk then (.ok (), { w with localFile := some data })
  else (.error ⟨"EACCES: permission denied, open"⟩, w)

/-- Model of `fs.readFile(LOCAL_MEMORY_PATH, 'utf8')`. -/
def fsReadFile (w : World) : Except JsError String × World :=
  match w.localFile with
  | some s => (.ok s, w)
  | none => (.error ⟨"ENOENT: no such file or directory, open"⟩, w)

/-! ## Object store client -/

/-- The `data` callbacks of `downloadFromOracle`: `data += chunk` for every chunk, starting
from the empty string. Adding a `Buffer` to a string converts the chunk on its own. -/
def accumulate (rt : Runtime) (chunks : List (List Nat)) : String :=
  chunks.foldl (fun data chunk => data ++ rt.bufferToString chunk) ""

/-- The `data`, `end` and `error` callbacks of `downloadFromOracle`, as a function of the
outcome of the request. -/
def downloadResult (rt : Runtime) : HttpOutcome → Except JsError Json
  | .failure m => .error ⟨m⟩
  | .response statusCode chunks =>
    let data := accumulate rt chunks
    if statusCode = 200 then
      match rt.parse data with
      | some memoryData => .ok memoryData
      | none => .ok emptyGraph
    else if statusCode = 404 then
      .ok emptyGraph
    else
      .error ⟨"Download failed: " ++ toString statusCode⟩

/-- `downloadFromOracle()`. -/
def downloadFromOracle (rt : Runtime) (w : World) : Except JsError Json × World :=
  (downloadResult rt (remoteGet w), w)

/-- The `end` / `error` callbacks of `uploadToOracle`. -/
def uploadResult : HttpOutcome → Except JsError Bool
  | .failure m => .error ⟨m⟩
  | .response statusCode _ =>
    if 200 ≤ statusCode ∧ statusCode < 300 then .ok true
    else .error ⟨"Upload failed: " ++ toString statusCode⟩

/-- `uploadToOracle(memoryData)`. -/
def uploadToOracle (rt : Runtime) (w : World) (memoryData : Json) :
    Except JsError Bool × World :=
  let data := rt.stringify memoryData
  let (res, w1) := remotePut w (rt.utf8Encode data)
  (uploadResult res, w1)

/-! ## Persistence manager -/

/-- The `catch` branch of `loadMemory`: fall back to the local file, then to the empty
graph. -/
def loadLocal (rt : Runtime) (w : World) : Except JsError Json × World :=
  match fsReadFile w with
  | (.ok localData, w1) =>
    match rt.parse localData with
    | some d => (.ok d, w1)
    | none => (.ok emptyGraph, w1)
  | (.error _, w1) => (.ok emptyGraph, w1)

/-- `loadMemory()`. -/
def loadMemory (rt : Runtime) (w : World) : Except JsError Json × World :=
  match downloadFromOracle rt w with
  | (.error _, w1) => loadLocal rt w1
  | (.ok cloudMemory, w1) =>
    match fsMkdir w1 with
    | (.error _, w2) => loadLocal rt w2
    | (.ok _, w2) =>
      match fsWriteFile w2 (rt.stringify cloudMemory) with
      | (.error _, w3) => loadLocal rt w3
      | (.ok _, w3) => (.ok cloudMemory, w3)

/-- `saveMemory(memoryData)`. -/
def saveMemory (rt : Runtime) (w : World) (memoryData : Json) : Except JsError Bool × World :=
  match uploadToOracle rt w memoryData with
  | (.error _, w1) => (.ok false, w1)
  | (.ok _, w1) =>
    match fsWriteFile w1 (rt.stringify memoryData) with
    | (.error _, w2) => (.ok false, w2)
    | (.ok _, w2) => (.ok true, w2)

/-! ## Graph store: the operations of the tool handler on the loaded document -/

/-- Own-property lookup on a parsed object. -/
def lookupField (key : String) : List (String × Json) → Option Json
  | [] => none
  | (k, v) :: fs => if k = key then some v else lookupField key fs

/-- Property assignment `o[key] = v` on a parsed object: an existing key keeps its place,
a new key goes last. -/
def setField (key : String) (v : Json) : List (String × Json) → List (String × Json)
  | [] => [(key, v)]
  | (k, x) :: fs => if k = key then (k, v) :: fs else (k, x) :: setField key v fs

/-- JavaScript truthiness of a JSON value. -/
def truthy : Json → Bool
  | .null => false
  | .bool b => b
  | .num n => n != 0
  | .str s => s != ""
  | .arr _ => true
  | .obj _ => true

/-- Property read `v[key]` for the keys the handler uses (`entities`, `relations`, `name`,
`entityType`, `observations`), none of which is a built-in property of arrays, strings,
numbers or booleans. `none` is `undefined`. -/
def getProp (v : Json) (key : String) : Except JsError (Option Json) :=
  match v with
  | .null => .error ⟨"Cannot read properties of null (reading '" ++ key ++ "')"⟩
  | .obj fs => .ok (lookupField key fs)
  | _ => .ok none

/-- The text V8 prints for a string, number or boolean in the message of the `TypeError`
raised by a property assignment on it. -/
def primitiveText : Json → String
  | .bool b => "boolean '" ++ toString b ++ "'"
  | .num n => "number '" ++ toString n ++ "'"
  | .str s => "string '" ++ s ++ "'"
  | _ => ""

/-- One iteration of the loops of `create_entities` / `create_relations`:
`memory[key] = memory[key] || []; memory[key].push(item)`. The result is the document as
`JSON.stringify(memory)` will see it: on an array the assignment creates a non-index
property, which is not serialised. The handler is class-body code, hence strict: the
assignment throws on a string, number or boolean. Messages follow V8's wording. -/
def pushInto (key : String) (memory : Json) (item : Json) : Except JsError Json :=
  match memory with
  | .null => .error ⟨"Cannot read properties of null (reading '" ++ key ++ "')"⟩
  | .obj fs =>
    let cur : Json :=
      match lookupField key fs with
      | some v => if truthy v then v else .arr []
      | none => .arr []
    match cur with
    | .arr items => .ok (.obj (setField key (.arr (items ++ [item])) fs))
    | _ => .error ⟨"memory." ++ key ++ ".push is not a function"⟩
  | .arr items => .ok (.arr items)
  | prim => .error ⟨"Cannot create property '" ++ key ++ "' on " ++ primitiveText prim⟩

/-- An entity as it appears in the arguments of `create_entities` and, tagged, in the
graph. -/
structure Entity where
  name : String
  entityType : String
  observations : List String
deriving DecidableEq

/-- A relation as it appears in the arguments of `create_relations` and, tagged, in the
graph. -/
structure Relation where
  src : String
  dst : String
  relationType : String
deriving DecidableEq

/-- The object pushed by `create_entities`. -/
def Entity.toJson (e : Entity) : Json :=
  .obj [("type", .str "entity"), ("name", .str e.name), ("entityType", .str e.entityType),
    ("observations", .arr (e.observations.map Json.str))]

/-- An element of `args.entities`, as echoed back. -/
def Entity.toArg (e : Entity) : Json :=
  .obj [("name", .str e.name), ("entityType", .str e.entityType),
    ("observations", .arr (e.observations.map Json.str))]

/-- The object pushed by `create_relations` (`src` is the field `from`, `dst` is `to`). -/
def Relation.toJson (r : Relation) : Json :=
  .obj [("type", .str "relation"), ("from", .str r.src), ("to", .str r.dst),
    ("relationType", .str r.relationType)]

/-- An element of `args.relations`, as echoed back. -/
def Relation.toArg (r : Relation) : Json :=
  .obj [("from", .str r.src), ("to", .str r.dst), ("relationType", .str r.relationType)]

/-- The `for` loop of `create_entities`. -/
def createEntities (memory : Json) : List Entity → Except JsError Json
  | [] => .ok memory
  | e :: es =>
    match pushInto "entities" memory e.toJson with
    | .error err => .error err
    | .ok memory1 => createEntities memory1 es

/-- The `for` loop of `create_relations`. -/
def createRelations (memory : Json) : List Relation → Except JsError Json
  | [] => .ok memory
  | r :: rs =>
    match pushInto "relations" memory r.toJson with
    | .error err => .error err
    | .ok memory1 => createRelations memory1 rs

/-- `haystack.includes(needle)` on strings. -/
def includes (haystack needle : String) : Bool :=
  decide (needle.data <:+: haystack.data)

/-- `x.toLowerCase().includes(query)` where `x` is the result of a property read, written
`expr` in the source. -/
def lowerIncludes (rt : Runtime) (expr : String) (x : Option Json) (query : String) :
    Except JsError Bool :=
  match x with
  | some (.str s) => .ok (includes (rt.toLowerCase s) query)
  | none => .error ⟨"Cannot read properties of undefined (reading 'toLowerCase')"⟩
  | some .null => .error ⟨"Cannot read properties of null (reading 'toLowerCase')"⟩
  | some _ => .error ⟨expr ++ ".toLowerCase is not a function"⟩

/-- `observations.some(obs => obs.toLowerCase().includes(query))` on the elements of an
array. -/
def someObservation (rt : Runtime) (query : String) : List Json → Except JsError Bool
  | [] => .ok false
  | obs :: rest =>
    match lowerIncludes rt "obs" (some obs) query with
    | .error err => .error err
    | .ok true => .ok true
    | .ok false => someObservation rt query rest

/-- The predicate passed to `filter` in `search_nodes`. -/
def entityMatches (rt : Runtime) (query : String) (entity : Json) : Except JsError Bool :=
  match getProp entity "name" with
  | .error err => .error err
  | .ok name =>
    match lowerIncludes rt "entity.name" name query with
    | .error err => .error err
    | .ok true => .ok true
    | .ok false =>
      match getProp entity "entityType" with
      | .error err => .error err
      | .ok entityType =>
        match lowerIncludes rt "entity.entityType" entityType query with
        | .error err => .error err
        | .ok true => .ok true
        | .ok false =>
          match getProp entity "observations" with
          | .error err => .error err
          | .ok (some (.arr items)) => someObservation rt query items
          | .ok none => .error ⟨"Cannot read properties of undefined (reading 'some')"⟩
          | .ok (some .null) => .error ⟨"Cannot read properties of null (reading 'some')"⟩
          | .ok (some _) => .error ⟨"entity.observations.some is not a function"⟩

/-- `items.filter(pred)` for a predicate that may throw. -/
def filterEntities (rt : Runtime) (query : String) : List Json → Except JsError (List Json)
  | [] => .ok []
  | entity :: rest =>
    match entityMatches rt query entity with
    | .error err => .error err
    | .ok keep =>
      match filterEntities rt query rest with
      | .error err => .error err
      | .ok kept => .ok (if keep then entity :: kept else kept)

/-- `memory.entities?.filter(...) || []`, for the already lower-cased `query`. -/
def searchNodes (rt : Runtime) (memory : Json) (query : String) : Except JsError (List Json) :=
  match getProp memory "entities" with
  | .error err => .error err
  | .ok none => .ok []
  | .ok (some .null) => .ok []
  | .ok (some (.arr items)) => filterEntities rt query items
  | .ok (some _) => .error ⟨"memory.entities?.filter is not a function"⟩

/-! ## Operation dispatcher -/

/-- The `arguments` of a tool call, at the shape of the tools' input schemas; a field may
be absent. -/
structure Args where
  entities : Option (List Entity)
  relations : Option (List Relation)
  query : Option String
deriving DecidableEq

/-- The value `{ content: [{ type: 'text', text }] }` returned by a tool call. -/
structure ToolResult where
  text : String
deriving DecidableEq

/-- The `catch` of the tool handler. -/
def toolFailure (error : JsError) : JsError :=
  ⟨"Tool execution failed: " ++ error.message⟩

/-- The `switch (name)` statement of the tool handler, run on the loaded `memory`. -/
def dispatch (rt : Runtime) (w : World) (memory : Json) (name : String) (args : Args) :
    Except JsError ToolResult × World :=
  if name = "create_entities" then
    match args.entities with
    | none => (.error ⟨"args.entities is not iterable"⟩, w)
    | some entities =>
      match createEntities memory entities with
      | .error err => (.error err, w)
      | .ok memory1 =>
        match saveMemory rt w memory1 with
        | (.error err, w1) => (.error err, w1)
        | (.ok _, w1) => (.ok ⟨rt.stringify (.arr (entities.map Entity.toArg))⟩, w1)
  else if name = "create_relations" then
    match args.relations with
    | none => (.error ⟨"args.relations is not iterable"⟩, w)
    | some relations =>
      match createRelations memory relations with
      | .error err => (.error err, w)
      | .ok memory1 =>
        match saveMemory rt w memory1 with
        | (.error err, w1) => (.error err, w1)
        | (.ok _, w1) => (.ok ⟨rt.stringify (.arr (relations.map Relation.toArg))⟩, w1)
  else if name = "read_graph" then
    (.ok ⟨rt.stringify memory⟩, w)
  else if name = "search_nodes" then
    match args.query with
    | none => (.error ⟨"Cannot read properties of undefined (reading 'toLowerCase')"⟩, w)
    | some q =>
      match searchNodes rt memory (rt.toLowerCase q) with
      | .error err => (.error err, w)
      | .ok matchingEntities =>
        (.ok ⟨rt.stringify (.obj [("entities", .arr matchingEntities)])⟩, w)
  else
    (.error ⟨"Unknown tool: " ++ name⟩, w)

/-- The `CallToolRequestSchema` handler: `loadMemory`, then the `switch`, with every error
of the `try` block re-thrown as `Tool execution failed: <message>`. -/
def handleCall (rt : Runtime) (w : World) (name : String) (args : Args) :
    Except JsError ToolResult × World :=
  match loadMemory rt w with
  | (.error err, w1) => (.error (toolFailure err), w1)
  | (.ok memory, w1) =>
    match dispatch rt w1 memory name args with
    | (.error err, w2) => (.error (toolFailure err), w2)
    | (.ok result, w2) => (.ok result, w2)

/-- A graph: the well-formed documents, as `create_entities` and `create_relations` build
them. -/
structure Graph where
  entities : List Entity
  relations : List Relation
deriving DecidableEq

/-- The document of a graph. -/
def Graph.toJson (g : Graph) : Json :=
  .obj [("entities", .arr (g.entities.map Entity.toJson)),
    ("relations", .arr (g.relations.map Relation.toJson))]

/-! ## A concrete runtime

`refRuntime` is an executable instance of `Runtime`, used to evaluate the program on
concrete inputs. Its serialiser prints a document the way `JSON.stringify(_, null, 2)` does;
its parser reads JSON text whose numbers are integers and whose `\u` escapes are not
surrogates; its `toLowerCase` lowers the ASCII letters; its byte functions are the UTF-8
encoder and the UTF-8 decoder that replaces every ill-formed sequence by U+FFFD. -/

namespace Ref

def hexDigit (n : Nat) : Char :=
  if n < 10 then Char.ofNat (48 + n) else Char.ofNat (87 + n)

def escapeChar (c : Char) : List Char :=
  if c = '"' then ['\\', '"']
  else if c = '\\' then ['\\', '\\']
  else if c = '\n' then ['\\', 'n']
  else if c = '\r' then ['\\', 'r']
  else if c = '\t' then ['\\', 't']
  else if c = Char.ofNat 8 then ['\\', 'b']
  else if c = Char.ofNat 12 then ['\\', 'f']
  else if c.toNat < 32 then
    ['\\', 'u', '0', '0', hexDigit (c.toNat / 16), hexDigit (c.toNat % 16)]
  else [c]

def quote (s : String) : List Char :=
  '"' :: (s.data.flatMap escapeChar ++ ['"'])

def pad (n : Nat) : List Char := List.replicate n ' '

mutual
/-- Pretty-printer with two-space indentation; `ind` is the current indentation. -/
def render (ind : Nat) : Json → List Char
  | .null => "null".data
  | .bool true => "true".data
  | .bool false => "false".data
  | .num n => (toString n).data
  | .str s => quote s
  | .arr [] => ['[', ']']
  | .arr (x :: xs) =>
    '[' :: '\n' :: (pad (ind + 2) ++ render (ind + 2) x ++ renderItems (ind + 2) xs
      ++ ('\n' :: pad ind ++ [']']))
  | .obj [] => ['\x7b', '\x7d']
  | .obj ((k, v) :: fs) =>
    '\x7b' :: '\n' :: (pad (ind + 2) ++ quote k ++ [':', ' '] ++ render (ind + 2) v
      ++ renderFields (ind + 2) fs ++ ('\n' :: pad ind ++ ['\x7d']))
def renderItems (ind : Nat) : List Json → List Char
  | [] => []
  | x :: xs => ',' :: '\n' :: (pad ind ++ render ind x ++ renderItems ind xs)
def renderFields (ind : Nat) : List (String × Json) → List Char
  | [] => []
  | (k, v) :: fs =>
    ',' :: '\n' :: (pad ind ++ quote k ++ [':', ' '] ++ render ind v ++ renderFields ind fs)
end

def stringify (v : Json) : String := String.mk (render 0 v)

def skipWs : List Char → List Char
  | c :: cs => if c = ' ' ∨ c = '\n' ∨ c = '\r' ∨ c = '\t' then skipWs cs else c :: cs
  | [] => []

def hexVal (c : Char) : Option Nat :=
  if '0' ≤ c ∧ c ≤ '9' then some (c.toNat - 48)
  else if 'a' ≤ c ∧ c ≤ 'f' then some (c.toNat - 87)
  else if 'A' ≤ c ∧ c ≤ 'F' then some (c.toNat - 55)
  else none

def hex4 (a b c d : Char) : Option Nat :=
  match hexVal a, hexVal b, hexVal c, hexVal d with
  | some x, some y, some z, some t => some (((x * 16 + y) * 16 + z) * 16 + t)
  | _, _, _, _ => none

/-- Reads the rest of a string literal, after its opening quote; `acc` is reversed. -/
def readString : List Char → List Char → Option (String × List Char)
  | acc, '"' :: cs => some (String.mk acc.reverse, cs)
  | acc, '\\' :: '"' :: cs => readString ('"' :: acc) cs
  | acc, '\\' :: '\\' :: cs => readString ('\\' :: acc) cs
  | acc, '\\' :: '/' :: cs => readString ('/' :: acc) cs
  | acc, '\\' :: 'n' :: cs => readString ('\n' :: acc) cs
  | acc, '\\' :: 'r' :: cs => readString ('\r' :: acc) cs
  | acc, '\\' :: 't' :: cs => readString ('\t' :: acc) cs
  | acc, '\\' :: 'b' :: cs => readString (Char.ofNat 8 :: acc) cs
  | acc, '\\' :: 'f' :: cs => readString (Char.ofNat 12 :: acc) cs
  | acc, '\\' :: 'u' :: a :: b :: c :: d :: cs =>
    match hex4 a b c d with
    | some n => if n < 55296 ∨ 57343 < n then readString (Char.ofNat n :: acc) cs else none
    | none => none
  | _, '\\' :: _ => none
  | acc, c :: cs => if c.toNat < 32 then none else readString (c :: acc) cs
  | _, [] => none

def readDigits : Nat → List Char → Nat × List Char
  | acc, c :: cs =>
    if '0' ≤ c ∧ c ≤ '9' then readDigits (acc * 10 + (c.toNat - 48)) cs else (acc, c :: cs)
  | acc, [] => (acc, [])

mutual
/-- Recursive-descent reader; `fuel` bounds the nesting and the number of elements. -/
def readValue : Nat → List Char → Option (Json × List Char)
  | 0, _ => none
  | fuel + 1, cs =>
    match skipWs cs with
    | 'n' :: 'u' :: 'l' :: 'l' :: r => some (.null, r)
    | 't' :: 'r' :: 'u' :: 'e' :: r => some (.bool true, r)
    | 'f' :: 'a' :: 'l' :: 's' :: 'e' :: r => some (.bool false, r)
    | '"' :: r => (readString [] r).map (fun p => (.str p.1, p.2))
    | '[' :: r =>
      match skipWs r with
      | ']' :: r1 => some (.arr [], r1)
      | r1 => readItems fuel [] r1
    | '\x7b' :: r =>
      match skipWs r with
      | '\x7d' :: r1 => some (.obj [], r1)
      | r1 => readFields fuel [] r1
    | '-' :: c :: r =>
      if '0' ≤ c ∧ c ≤ '9' then
        let (n, r1) := readDigits 0 (c :: r)
        some (.num (- (n : Int)), r1)
      else none
    | c :: r =>
      if '0' ≤ c ∧ c ≤ '9' then
        let (n, r1) := readDigits 0 (c :: r)
        some (.num (n : Int), r1)
      else none
    | [] => none
def readItems : Nat → List Json → List Char → Option (Json × List Char)
  | 0, _, _ => none
  | fuel + 1, acc, cs =>
    match readValue fuel cs with
    | none => none
    | some (v, r) =>
      match skipWs r with
      | ',' :: r1 => readItems fuel (v :: acc) r1
      | ']' :: r1 => some (.arr (v :: acc).reverse, r1)
      | _ => none
def readFields : Nat → List (String × Json) → List Char → Option (Json × List Char)
  | 0, _, _ => none
  | fuel + 1, acc, cs =>
    match skipWs cs with
    | '"' :: r =>
      match readString [] r with
      | none => none
      | some (k, r1) =>
        match skipWs r1 with
        | ':' :: r2 =>
          match readValue fuel r2 with
          | none => none
          | some (v, r3) =>
            match skipWs r3 with
            | ',' :: r4 => readFields fuel (setField k v acc) r4
            | '\x7d' :: r4 => some (.obj (setField k v acc), r4)
            | _ => none
        | _ => none
    | _ => none
end

def parse (s : String) : Option Json :=
  match readValue (s.length + 1) s.data with
  | some (v, r) => if skipWs r = [] then some v else none
  | none => none

def toLowerCase (s : String) : String := String.mk (s.data.map Char.toLower)

def encodeChar (c : Char) : List Nat :=
  let n := c.toNat
  if n < 128 then [n]
  else if n < 2048 then [192 + n / 64, 128 + n % 64]
  else if n < 65536 then [224 + n / 4096, 128 + n / 64 % 64, 128 + n % 64]
  else [240 + n / 262144, 128 + n / 4096 % 64, 128 + n / 64 % 64, 128 + n % 64]

def utf8Encode (s : String) : List Nat := s.data.flatMap encodeChar

/-- State of the UTF-8 decoder: the code point read so far, the number of continuation
bytes still expected, and the range allowed for the next one. -/
structure Utf8State where
  cp : Nat
  need : Nat
  lo : Nat
  hi : Nat

def utf8Idle : Utf8State := ⟨0, 0, 128, 191⟩

/-- A byte read when no continuation byte is expected. -/
def utf8Fresh (b : Nat) : List Char × Utf8State :=
  if b < 128 then ([Char.ofNat b], utf8Idle)
  else if 194 ≤ b ∧ b ≤ 223 then ([], ⟨b % 32, 1, 128, 191⟩)
  else if 224 ≤ b ∧ b ≤ 239 then
    ([], ⟨b % 16, 2, if b = 224 then 160 else 128, if b = 237 then 159 else 191⟩)
  else if 240 ≤ b ∧ b ≤ 244 then
    ([], ⟨b % 8, 3, if b = 240 then 144 else 128, if b = 244 then 143 else 191⟩)
  else ([Char.ofNat 65533], utf8Idle)

/-- One byte of input; an ill-formed sequence is replaced by U+FFFD and the byte that ended
it is read again. -/
def utf8Step (st : Utf8State) (b : Nat) : List Char × Utf8State :=
  if st.need = 0 then utf8Fresh b
  else if st.lo ≤ b ∧ b ≤ st.hi then
    if st.need = 1 then ([Char.ofNat (st.cp * 64 + b % 64)], utf8Idle)
    else ([], ⟨st.cp * 64 + b % 64, st.need - 1, 128, 191⟩)
  else (Char.ofNat 65533 :: (utf8Fresh b).1, (utf8Fresh b).2)

def utf8Decode (st : Utf8State) : List Nat → List Char
  | [] => if st.need = 0 then [] else [Char.ofNat 65533]
  | b :: bs => (utf8Step st b).1 ++ utf8Decode (utf8Step st b).2 bs

def bufferToString (bytes : List Nat) : String := String.mk (utf8Decode utf8Idle bytes)

end Ref

/-- The concrete runtime. -/
def refRuntime : Runtime where
  stringify := Ref.stringify
  parse := Ref.parse
  toLowerCase := Ref.toLowerCase
  utf8Encode := Ref.utf8Encode
  bufferToString := Ref.bufferToString

/-! ## Specification-side definitions -/

/-- The graph `loadMemory` is specified to return: the remote graph when the remote get
and the local mirror write succeed, else the parsed local file when it can be read and
parsed, else the empty graph. -/
def loadMemorySpec (rt : Runtime) (w : World) : Json :=
  let localOrEmpty : Json :=
    match w.localFile with
    | some s => (rt.parse s).getD emptyGraph
    | none => emptyGraph
  match downloadResult rt (remoteGet w) with
  | .ok remoteGraph => if w.mkdirOk ∧ w.writeOk then remoteGraph else localOrEmpty
  | .error _ => localOrEmpty

/-- The world after `loadMemory`: the local mirror is rewritten exactly when the remote get
and both local calls succeed. -/
def worldAfterLoad (rt : Runtime) (w : World) : World :=
  match downloadResult rt (remoteGet w) with
  | .ok d => if w.mkdirOk ∧ w.writeOk then { w with localFile := some (rt.stringify d) } else w
  | .error _ => w

/-- The remote put fails: transport failure, or a status outside 200..299. -/
def putFails (w : World) : Prop :=
  match w.putAnswer with
  | .failure _ => True
  | .response statusCode _ => ¬ (200 ≤ statusCode ∧ statusCode < 300)

/-- The remote put is accepted: a response with a status in 200..299. -/
def putAccepted (w : World) : Prop :=
  match w.putAnswer with
  | .response statusCode _ => 200 ≤ statusCode ∧ statusCode < 300
  | .failure _ => False

/-- After a put of `text`, the remote get either fails or delivers `text` intact: the
chunks of its bytes, converted one by one and added up, give `text` again. -/
def servesIntactOrFails (rt : Runtime) (w : World) (text : String) : Prop :=
  match w.getFault with
  | none => accumulate rt (cutChunks w.chunkSizes (rt.utf8Encode text)) = text
  | some o => ∃ e, downloadResult rt o = .error e

/-- The remote get answers 404, or 200 with a body that is not valid JSON. -/
def remoteAbsentOrCorrupt (rt : Runtime) (w : World) : Prop :=
  match remoteGet w with
  | .response statusCode chunks =>
    statusCode = 404 ∨ (statusCode = 200 ∧ rt.parse (accumulate rt chunks) = none)
  | .failure _ => False

/-- The match of `search_nodes` as specified: the lower-cased query is a substring of the
lower-cased name, of the lower-cased entity type, or of some lower-cased observation. -/
def Entity.matchesSpec (rt : Runtime) (q : String) (e : Entity) : Bool :=
  decide ((rt.toLowerCase q).data <:+: (rt.toLowerCase e.name).data) ||
  decide ((rt.toLowerCase q).data <:+: (rt.toLowerCase e.entityType).data) ||
  e.observations.any (fun o => decide ((rt.toLowerCase q).data <:+: (rt.toLowerCase o).data))

/-- The names of the four tools. -/
def toolNames : List String :=
  ["create_entities", "create_relations", "read_graph", "search_nodes"]

/-! ## Concrete inputs -/

/-- The default configuration: `ORACLE_BASE_URL` is empty, so every remote call is rejected
by `new URL`; there is no local file. -/
def offlineWorld : World :=
  ⟨none, [], some (.failure "Invalid URL"), .failure "Invalid URL", [], none, true, true⟩

/-- A reachable, empty object store that serves bodies in chunks of 16 and then 64 bytes,
and a writable working directory without a cache file. -/
def onlineWorld : World :=
  ⟨none, [16, 64], none, .response 200 [], [], none, true, true⟩

/-- An empty object store (GET answers 404) next to a cache file left by an earlier run. -/
def staleWorld : World :=
  ⟨none, [], none, .response 200 [], [],
    some "\x7b\"entities\": [\x7b\"type\": \"entity\", \"name\": \"old\", \"entityType\": \"t\", \"observations\": []\x7d], \"relations\": []\x7d",
    true, true⟩

/-- A store that holds the empty graph but answers 500 to every request, next to an older
cache file. -/
def brokenWorld : World :=
  ⟨some (Ref.utf8Encode "\x7b\"entities\": [], \"relations\": []\x7d"), [],
    some (.response 500 [[111, 111], [112, 115]]), .response 500 [[111, 111, 112, 115]], [],
    some "[1, 2]", true, true⟩

/-- A reachable store whose answers arrive in a first chunk of 67 bytes, which ends in the
middle of the two-byte character of `café` in the graph of `cafe`. -/
def choppyWorld : World :=
  ⟨none, [67], none, .response 200 [], [], none, true, true⟩

def entityA : Entity := ⟨"A", "t", ["o1"]⟩

def entityB : Entity := ⟨"B", "t", []⟩

def redis : Entity := ⟨"Redis", "cache", ["in-memory store"]⟩

def redisGraph : Graph := ⟨[redis], [⟨"Redis", "Ghost", "feeds"⟩]⟩

def cafe : Entity := ⟨"café", "t", []⟩

def noArgs : Args := ⟨none, none, none⟩



/-! ## Lemmas -/

theorem loadLocal_fst (rt : Runtime) (w : World) :
    loadLocal rt w =
      (.ok (match w.localFile with
        | some s => (rt.parse s).getD emptyGraph
        | none => emptyGraph), w) := by
  unfold loadLocal fsReadFile
  cases h : w.localFile with
  | none => rfl
  | some s => cases hp : rt.parse s <;> simp [hp]

theorem pushInto_entities (ents rels : List Json) (item : Json) :
    pushInto "entities" (.obj [("entities", .arr ents), ("relations", .arr rels)]) item =
      .ok (.obj [("entities", .arr (ents ++ [item])), ("relations", .arr rels)]) := by
  simp [pushInto, lookupField, setField, truthy]

theorem pushInto_relations (ents rels : List Json) (item : Json) :
    pushInto "relations" (.obj [("entities", .arr ents), ("relations", .arr rels)]) item =
      .ok (.obj [("entities", .arr ents), ("relations", .arr (rels ++ [item]))]) := by
  simp [pushInto, lookupField, setField, truthy]

theorem createEntities_doc (ents rels : List Json) (es : List Entity) :
    createEntities (.obj [("entities", .arr ents), ("relations", .arr rels)]) es =
      .ok (.obj [("entities", .arr (ents ++ es.map Entity.toJson)),
        ("relations", .arr rels)]) := by
  induction es generalizing ents with
  | nil => simp [createEntities]
  | cons e es ih =>
    simp only [createEntities, pushInto_entities]
    rw [ih]
    simp

theorem createRelations_doc (ents rels : List Json) (rs : List Relation) :
    createRelations (.obj [("entities", .arr ents), ("relations", .arr rels)]) rs =
      .ok (.obj [("entities", .arr ents),
        ("relations", .arr (rels ++ rs.map Relation.toJson))]) := by
  induction rs generalizing rels with
  | nil => simp [createRelations]
  | cons r rs ih =>
    simp only [createRelations, pushInto_relations]
    rw [ih]
    simp

theorem someObservation_strs (rt : Runtime) (q : String) (obs : List String) :
    someObservation rt q (obs.map Json.str) =
      .ok (obs.any (fun o => includes (rt.toLowerCase o) q)) := by
  induction obs with
  | nil => rfl
  | cons o os ih =>
    simp only [List.map_cons, someObservation, lowerIncludes, List.any_cons]
    cases h : includes (rt.toLowerCase o) q <;> simp [ih]

theorem matchesSpec_eq (rt : Runtime) (q : String) (e : Entity) :
    e.matchesSpec rt q =
      (includes (rt.toLowerCase e.name) (rt.toLowerCase q) ||
        includes (rt.toLowerCase e.entityType) (rt.toLowerCase q) ||
        e.observations.any (fun o => includes (rt.toLowerCase o) (rt.toLowerCase q))) := rfl

theorem entityMatches_entity (rt : Runtime) (q : String) (e : Entity) :
    entityMatches rt (rt.toLowerCase q) e.toJson = .ok (e.matchesSpec rt q) := by
  rw [matchesSpec_eq]
  simp only [entityMatches, Entity.toJson, getProp, lookupField, lowerIncludes]
  simp only [show ("type" = "name") = False from by decide,
    show ("type" = "entityType") = False from by decide,
    show ("name" = "entityType") = False from by decide,
    show ("type" = "observations") = False from by decide,
    show ("name" = "observations") = False from by decide,
    show ("entityType" = "observations") = False from by decide, if_true, if_false]
  cases h1 : includes (rt.toLowerCase e.name) (rt.toLowerCase q) <;>
    cases h2 : includes (rt.toLowerCase e.entityType) (rt.toLowerCase q) <;>
    simp [someObservation_strs]

theorem filterEntities_entities (rt : Runtime) (q : String) (es : List Entity) :
    filterEntities rt (rt.toLowerCase q) (es.map Entity.toJson) =
      .ok ((es.filter (Entity.matchesSpec rt q)).map Entity.toJson) := by
  induction es with
  | nil => rfl
  | cons e es ih =>
    simp only [List.map_cons, filterEntities, entityMatches_entity, ih, List.filter_cons]
    cases h : e.matchesSpec rt q <;> simp

theorem searchNodes_graph (rt : Runtime) (g : Graph) (q : String) :
    searchNodes rt g.toJson (rt.toLowerCase q) =
      .ok ((g.entities.filter (Entity.matchesSpec rt q)).map Entity.toJson) := by
  simp [searchNodes, Graph.toJson, getProp, lookupField, filterEntities_entities]


theorem loadMemory_eq (rt : Runtime) (w : World) :
    loadMemory rt w = (.ok (loadMemorySpec rt w), worldAfterLoad rt w) := by
  unfold loadMemory loadMemorySpec worldAfterLoad downloadFromOracle fsMkdir fsWriteFile
  cases hd : downloadResult rt (remoteGet w) with
  | error e => simp [loadLocal_fst]
  | ok d =>
    cases hm : w.mkdirOk <;> cases hw : w.writeOk <;> simp [loadLocal_fst, hm, hw]

theorem worldAfterLoad_frame (rt : Runtime) (w : World) :
    (worldAfterLoad rt w).remoteObj = w.remoteObj ∧
    (worldAfterLoad rt w).getFault = w.getFault ∧
    (worldAfterLoad rt w).putAnswer = w.putAnswer ∧
    (worldAfterLoad rt w).putLog = w.putLog ∧
    (worldAfterLoad rt w).mkdirOk = w.mkdirOk ∧
    (worldAfterLoad rt w).writeOk = w.writeOk ∧
    (worldAfterLoad rt w).chunkSizes = w.chunkSizes := by
  unfold worldAfterLoad
  cases downloadResult rt (remoteGet w) with
  | error e => simp
  | ok d => by_cases h : w.mkdirOk ∧ w.writeOk <;> simp [h]

theorem loadMemory_idem (rt : Runtime) (w : World) :
    loadMemory rt (loadMemory rt w).2 = loadMemory rt w := by
  rw [loadMemory_eq rt w]
  simp only
  rw [loadMemory_eq]
  cases hd : downloadResult rt (remoteGet w) with
  | error e =>
    have hw : worldAfterLoad rt w = w := by simp [worldAfterLoad, hd]
    simp only [hw]
  | ok d =>
    by_cases h : w.mkdirOk = true ∧ w.writeOk = true
    · have hw : worldAfterLoad rt w = { w with localFile := some (rt.stringify d) } := by
        simp [worldAfterLoad, hd, h]
      have hg : remoteGet { w with localFile := some (rt.stringify d) } = remoteGet w := rfl
      simp only [hw]
      simp only [loadMemorySpec, worldAfterLoad, hg, hd]
      simp [h]
    · have hw : worldAfterLoad rt w = w := by simp [worldAfterLoad, hd, h]
      simp only [hw]

theorem handleCall_read_graph (rt : Runtime) (w : World) (args : Args) :
    handleCall rt w "read_graph" args =
      (.ok ⟨rt.stringify (loadMemorySpec rt w)⟩, worldAfterLoad rt w) := by
  simp [handleCall, loadMemory_eq, dispatch]


theorem saveMemory_total (rt : Runtime) (w : World) (G : Json) :
    ∃ b, (saveMemory rt w G).1 = .ok b := by
  unfold saveMemory
  cases h1 : uploadToOracle rt w G with
  | mk r w1 =>
    cases r with
    | error e => exact ⟨false, rfl⟩
    | ok v =>
      simp only
      cases h2 : fsWriteFile w1 (rt.stringify G) with
      | mk r2 w2 =>
        cases r2 with
        | error e => exact ⟨false, rfl⟩
        | ok v2 => exact ⟨true, rfl⟩

theorem saveMemory_putLog (rt : Runtime) (w : World) (G : Json) :
    (saveMemory rt w G).2.putLog = w.putLog ++ [rt.utf8Encode (rt.stringify G)] := by
  unfold saveMemory uploadToOracle remotePut uploadResult fsWriteFile
  cases hp : w.putAnswer with
  | failure m => simp
  | response s b =>
    by_cases h : 200 ≤ s ∧ s < 300
    · cases hw : w.writeOk <;> simp [h, hw]
    · simp [h]

theorem saveMemory_accepted (rt : Runtime) (w : World) (G : Json) (hp : putAccepted w)
    (hw : w.writeOk = true) :
    saveMemory rt w G =
      (.ok true, { w with remoteObj := some (rt.utf8Encode (rt.stringify G)),
                          putLog := w.putLog ++ [rt.utf8Encode (rt.stringify G)],
                          localFile := some (rt.stringify G) }) := by
  unfold putAccepted at hp
  unfold saveMemory uploadToOracle remotePut uploadResult fsWriteFile
  cases ha : w.putAnswer with
  | failure m => simp [ha] at hp
  | response s b =>
    rw [ha] at hp
    simp only at hp
    simp [hp, hw]

theorem saveMemory_true (rt : Runtime) (w : World) (G : Json)
    (h : (saveMemory rt w G).1 = .ok true) : putAccepted w ∧ w.writeOk = true := by
  unfold putAccepted
  unfold saveMemory uploadToOracle remotePut uploadResult fsWriteFile at h
  cases ha : w.putAnswer with
  | failure m => simp [ha] at h
  | response s b =>
    rw [ha] at h
    by_cases hs : 200 ≤ s ∧ s < 300
    · cases hw : w.writeOk
      · simp [hs, hw] at h
      · exact ⟨hs, rfl⟩
    · simp [hs] at h

theorem servesIntactOrFails_congr (rt : Runtime) {w w1 : World} (text : String)
    (h1 : w1.getFault = w.getFault) (h2 : w1.chunkSizes = w.chunkSizes)
    (h : servesIntactOrFails rt w text) : servesIntactOrFails rt w1 text := by
  unfold servesIntactOrFails at *
  rw [h1, h2]
  exact h

/-- After a `saveMemory` that reports success, `loadMemory` returns the saved document,
provided the runtime parses it back and the get fails or delivers the text intact. -/
theorem load_after_save (rt : Runtime) (w : World) (G : Json)
    (hrt : rt.parse (rt.stringify G) = some G)
    (hs : (saveMemory rt w G).1 = .ok true)
    (hget : servesIntactOrFails rt w (rt.stringify G)) :
    (loadMemory rt (saveMemory rt w G).2).1 = .ok G := by
  obtain ⟨hp, hw⟩ := saveMemory_true rt w G hs
  rw [saveMemory_accepted rt w G hp hw, loadMemory_eq]
  unfold servesIntactOrFails at hget
  simp only [loadMemorySpec, remoteGet]
  cases hf : w.getFault with
  | none =>
    rw [hf] at hget
    simp only at hget
    simp only [downloadResult, hget, hrt, if_true]
    cases hm : w.mkdirOk <;> simp [hw]
  | some o =>
    rw [hf] at hget
    obtain ⟨e, he⟩ := hget
    simp [he, hrt]

theorem dispatch_create_entities (rt : Runtime) (w : World) (ents rels : List Json)
    (es : List Entity) (rs : Option (List Relation)) (q : Option String) :
    dispatch rt w (.obj [("entities", .arr ents), ("relations", .arr rels)])
        "create_entities" ⟨some es, rs, q⟩ =
      (.ok ⟨rt.stringify (.arr (es.map Entity.toArg))⟩,
        (saveMemory rt w (.obj [("entities", .arr (ents ++ es.map Entity.toJson)),
          ("relations", .arr rels)])).2) := by
  obtain ⟨b, hb⟩ := saveMemory_total rt w
    (.obj [("entities", .arr (ents ++ es.map Entity.toJson)), ("relations", .arr rels)])
  simp only [dispatch, if_true, createEntities_doc]
  cases hsv : saveMemory rt w
      (.obj [("entities", .arr (ents ++ es.map Entity.toJson)), ("relations", .arr rels)]) with
  | mk r w1 =>
    rw [hsv] at hb
    simp only at hb
    subst hb
    rfl

theorem dispatch_create_relations (rt : Runtime) (w : World) (ents rels : List Json)
    (rs : List Relation) (es : Option (List Entity)) (q : Option String) :
    dispatch rt w (.obj [("entities", .arr ents), ("relations", .arr rels)])
        "create_relations" ⟨es, some rs, q⟩ =
      (.ok ⟨rt.stringify (.arr (rs.map Relation.toArg))⟩,
        (saveMemory rt w (.obj [("entities", .arr ents),
          ("relations", .arr (rels ++ rs.map Relation.toJson))])).2) := by
  obtain ⟨b, hb⟩ := saveMemory_total rt w
    (.obj [("entities", .arr ents), ("relations", .arr (rels ++ rs.map Relation.toJson))])
  have hne : ("create_relations" = "create_entities") = False := by decide
  simp only [dispatch, hne, if_true, if_false, createRelations_doc]
  cases hsv : saveMemory rt w
      (.obj [("entities", .arr ents),
        ("relations", .arr (rels ++ rs.map Relation.toJson))]) with
  | mk r w1 =>
    rw [hsv] at hb
    simp only at hb
    subst hb
    rfl

/-- One `create_entities` call in a world where the put is accepted and the cache file can
be written: the call answers with the echo, the world keeps those two properties and its
way of serving, and the next `loadMemory` returns the extended document. -/
theorem create_entities_step (rt : Runtime) (w : World) (ents rels : List Json)
    (es : List Entity) (hp : putAccepted w) (hw : w.writeOk = true)
    (hload : (loadMemory rt w).1 = .ok (.obj [("entities", .arr ents), ("relations", .arr rels)]))
    (hrt : rt.parse (rt.stringify (.obj [("entities", .arr (ents ++ es.map Entity.toJson)),
        ("relations", .arr rels)])) =
      some (.obj [("entities", .arr (ents ++ es.map Entity.toJson)), ("relations", .arr rels)]))
    (hget : servesIntactOrFails rt w (rt.stringify
      (.obj [("entities", .arr (ents ++ es.map Entity.toJson)), ("relations", .arr rels)]))) :
    (handleCall rt w "create_entities" ⟨some es, none, none⟩).1 =
        .ok ⟨rt.stringify (.arr (es.map Entity.toArg))⟩ ∧
      putAccepted (handleCall rt w "create_entities" ⟨some es, none, none⟩).2 ∧
      (handleCall rt w "create_entities" ⟨some es, none, none⟩).2.writeOk = true ∧
      (handleCall rt w "create_entities" ⟨some es, none, none⟩).2.getFault = w.getFault ∧
      (handleCall rt w "create_entities" ⟨some es, none, none⟩).2.chunkSizes = w.chunkSizes ∧
      (loadMemory rt (handleCall rt w "create_entities" ⟨some es, none, none⟩).2).1 =
        .ok (.obj [("entities", .arr (ents ++ es.map Entity.toJson)),
          ("relations", .arr rels)]) := by
  rw [loadMemory_eq] at hload
  have hspec : loadMemorySpec rt w =
      .obj [("entities", .arr ents), ("relations", .arr rels)] := by
    simpa using hload
  have hcall : handleCall rt w "create_entities" ⟨some es, none, none⟩ =
      (.ok ⟨rt.stringify (.arr (es.map Entity.toArg))⟩,
        (saveMemory rt (worldAfterLoad rt w)
          (.obj [("entities", .arr (ents ++ es.map Entity.toJson)),
            ("relations", .arr rels)])).2) := by
    simp only [handleCall, loadMemory_eq, hspec, dispatch_create_entities]
  obtain ⟨-, h2, h3, -, -, h6, h7⟩ := worldAfterLoad_frame rt w
  have hp1 : putAccepted (worldAfterLoad rt w) := by
    unfold putAccepted at *
    rw [h3]
    exact hp
  have hw1 : (worldAfterLoad rt w).writeOk = true := by rw [h6]; exact hw
  have hget1 := servesIntactOrFails_congr rt _ h2 h7 hget
  have hsave := saveMemory_accepted rt (worldAfterLoad rt w)
    (.obj [("entities", .arr (ents ++ es.map Entity.toJson)), ("relations", .arr rels)])
    hp1 hw1
  have hl := load_after_save rt (worldAfterLoad rt w) _ hrt (by rw [hsave]) hget1
  rw [hcall]
  refine ⟨rfl, ?_, ?_, ?_, ?_, hl⟩
  · rw [hsave]
    exact hp1
  · rw [hsave]
    exact hw1
  · rw [hsave]
    exact h2
  · rw [hsave]
    exact h7

theorem create_twice_then_read (rt : Runtime) (w : World) (ents rels : List Json)
    (a b : Entity) (hp : putAccepted w) (hw : w.writeOk = true)
    (hload : (loadMemory rt w).1 = .ok (.obj [("entities", .arr ents), ("relations", .arr rels)]))
    (hrt1 : rt.parse (rt.stringify (.obj [("entities", .arr (ents ++ [a.toJson])),
        ("relations", .arr rels)])) =
      some (.obj [("entities", .arr (ents ++ [a.toJson])), ("relations", .arr rels)]))
    (hrt2 : rt.parse (rt.stringify (.obj [("entities", .arr (ents ++ [a.toJson, b.toJson])),
        ("relations", .arr rels)])) =
      some (.obj [("entities", .arr (ents ++ [a.toJson, b.toJson])), ("relations", .arr rels)]))
    (hget1 : servesIntactOrFails rt w (rt.stringify
      (.obj [("entities", .arr (ents ++ [a.toJson])), ("relations", .arr rels)])))
    (hget2 : servesIntactOrFails rt w (rt.stringify
      (.obj [("entities", .arr (ents ++ [a.toJson, b.toJson])), ("relations", .arr rels)]))) :
    (handleCall rt
        (handleCall rt (handleCall rt w "create_entities" ⟨some [a], none, none⟩).2
          "create_entities" ⟨some [b], none, none⟩).2
        "read_graph" ⟨none, none, none⟩).1 =
      .ok ⟨rt.stringify (.obj [("entities", .arr (ents ++ [a.toJson, b.toJson])),
        ("relations", .arr rels)])⟩ := by
  obtain ⟨-, hp1, hw1, hf1, hc1, hl1⟩ :=
    create_entities_step rt w ents rels [a] hp hw hload (by simpa using hrt1)
      (by simpa using hget1)
  simp only [List.map_cons, List.map_nil] at hl1
  have hget2' := servesIntactOrFails_congr rt _ hf1 hc1 hget2
  obtain ⟨-, -, -, -, -, hl2⟩ :=
    create_entities_step rt _ (ents ++ [a.toJson]) rels [b] hp1 hw1 hl1
      (by simpa using hrt2) (by simpa using hget2')
  rw [handleCall_read_graph]
  rw [loadMemory_eq] at hl2
  simp only [Except.ok.injEq] at hl2
  simp only [hl2]
  simp


set_option maxRecDepth 1000000

/-! ## Claims -/

/-- C1: for every remote-store outcome and every local-cache outcome, `loadMemory` never
fails; it returns the remote graph when the remote get and the local mirror write succeed,
otherwise the parsed local file when it can be read and parsed, otherwise the empty graph
(the three cases are the definition of `loadMemorySpec`). -/
theorem loadMemory_never_fails (rt : Runtime) (w : World) :
    (loadMemory rt w).1 = .ok (loadMemorySpec rt w) := by
  unfold loadMemory loadMemorySpec downloadFromOracle fsMkdir fsWriteFile
  cases hd : downloadResult rt (remoteGet w) with
  | error e => simp [loadLocal_fst]
  | ok d =>
    cases hm : w.mkdirOk <;> cases hw : w.writeOk <;> simp [loadLocal_fst, hm, hw]

/-- C2: if the remote put fails (transport failure or a status outside 200..299),
`saveMemory` returns `false` without throwing and the local file is what it was before the
call (the stored remote object is unchanged as well). -/
theorem saveMemory_remote_failure (rt : Runtime) (w : World) (G : Json) (h : putFails w) :
    (saveMemory rt w G).1 = .ok false ∧
      (saveMemory rt w G).2.localFile = w.localFile ∧
      (saveMemory rt w G).2.remoteObj = w.remoteObj := by
  unfold putFails at h
  unfold saveMemory uploadToOracle remotePut uploadResult
  cases hp : w.putAnswer with
  | failure m => simp
  | response s b =>
    rw [hp] at h
    simp only at h
    simp [h]

theorem saveMemory_remote_failure_witness :
    putFails brokenWorld ∧
      (saveMemory refRuntime brokenWorld (Graph.toJson ⟨[entityA], []⟩)).1 = .ok false ∧
      (saveMemory refRuntime brokenWorld (Graph.toJson ⟨[entityA], []⟩)).2.localFile =
        some "[1, 2]" :=
  have h : putFails brokenWorld := by simp [putFails, brokenWorld]
  ⟨h, (saveMemory_remote_failure refRuntime brokenWorld _ h).1,
    (saveMemory_remote_failure refRuntime brokenWorld _ h).2.1⟩

/-- C3: on every graph and for every query, `search_nodes` returns the document
`{ entities: ... }` holding exactly the entities that match as specified, in graph order, and
nothing else (no relation), and leaves the world as it is. For the entity `Redis` of type
`cache` with the observation `in-memory store`, the queries `redis`, `CACHE` and `memory`
select it and `postgres` does not. -/
theorem search_nodes_matching_entities :
    (∀ (rt : Runtime) (w : World) (g : Graph) (q : String) (es : Option (List Entity))
        (rs : Option (List Relation)),
      dispatch rt w g.toJson "search_nodes" ⟨es, rs, some q⟩ =
        (.ok ⟨rt.stringify (.obj [("entities",
          .arr ((g.entities.filter (Entity.matchesSpec rt q)).map Entity.toJson))])⟩, w)) ∧
    searchNodes refRuntime redisGraph.toJson (refRuntime.toLowerCase "redis") =
      .ok [redis.toJson] ∧
    searchNodes refRuntime redisGraph.toJson (refRuntime.toLowerCase "CACHE") =
      .ok [redis.toJson] ∧
    searchNodes refRuntime redisGraph.toJson (refRuntime.toLowerCase "memory") =
      .ok [redis.toJson] ∧
    searchNodes refRuntime redisGraph.toJson (refRuntime.toLowerCase "postgres") = .ok [] := by
  refine ⟨?_, ?_, ?_, ?_, ?_⟩
  · intro rt w g q es rs
    have h1 : ("search_nodes" = "create_entities") = False := by decide
    have h2 : ("search_nodes" = "create_relations") = False := by decide
    have h3 : ("search_nodes" = "read_graph") = False := by decide
    simp only [dispatch, h1, h2, h3, if_true, if_false, searchNodes_graph]
  · rfl
  · rfl
  · rfl
  · rfl

/-- C4 (as stated, refuted): under the default configuration every remote call fails, so
after `create_entities [A]` and `create_entities [B]`, both answered with their echo,
`read_graph` returns the empty graph and not the graph holding A and B. -/
theorem create_then_read_offline_counterexample :
    (handleCall refRuntime offlineWorld "create_entities" ⟨some [entityA], none, none⟩).1 =
        .ok ⟨refRuntime.stringify (.arr [entityA.toArg])⟩ ∧
      (handleCall refRuntime
        (handleCall refRuntime offlineWorld "create_entities" ⟨some [entityA], none, none⟩).2
        "create_entities" ⟨some [entityB], none, none⟩).1 =
        .ok ⟨refRuntime.stringify (.arr [entityB.toArg])⟩ ∧
      (handleCall refRuntime
        (handleCall refRuntime
          (handleCall refRuntime offlineWorld "create_entities"
            ⟨some [entityA], none, none⟩).2
          "create_entities" ⟨some [entityB], none, none⟩).2
        "read_graph" noArgs).1 = .ok ⟨refRuntime.stringify emptyGraph⟩ ∧
      refRuntime.stringify emptyGraph ≠
        refRuntime.stringify (.obj [("entities",
          .arr [.obj [("type", .str "entity"), ("name", .str "A"), ("entityType", .str "t"),
              ("observations", .arr [.str "o1"])],
            .obj [("type", .str "entity"), ("name", .str "B"), ("entityType", .str "t"),
              ("observations", .arr [])]]),
          ("relations", .arr [])]) :=
  ⟨rfl, rfl, rfl, by decide⟩

/-- C4 (amended): on a loaded graph document with entities `ents` and relations `rels`,
`create_entities` produces the document whose entities are `ents`, untouched and in order,
followed by one record per new entity in the given order, holding the tag `entity` and that
entity's own name, entity type and observations, with `rels` unchanged; it sends exactly
that document to the store and answers with the echo of its arguments. Two entities of the
same name both stay. When the remote put is accepted, the cache file can be written, the
runtime parses back what it serialised and the remote get fails or delivers the stored text
intact, creating `a` and then `b` (whatever their names) makes a later `read_graph` return
`ents` followed by the records of `a` and `b`. -/
theorem create_entities_appends :
    (∀ (ents rels : List Json) (es : List Entity),
      createEntities (.obj [("entities", .arr ents), ("relations", .arr rels)]) es =
        .ok (.obj [("entities", .arr (ents ++ es.map (fun e =>
            .obj [("type", .str "entity"), ("name", .str e.name),
              ("entityType", .str e.entityType),
              ("observations", .arr (e.observations.map Json.str))]))),
          ("relations", .arr rels)])) ∧
    createEntities
        (.obj [("entities", .arr [.obj [("type", .str "entity"), ("name", .str "A"),
            ("entityType", .str "t"), ("observations", .arr [.str "o1"])]]),
          ("relations", .arr [.str "kept"])])
        [⟨"A", "other", ["x", "y"]⟩, ⟨"B", "t", []⟩] =
      .ok (.obj [("entities", .arr [
          .obj [("type", .str "entity"), ("name", .str "A"), ("entityType", .str "t"),
            ("observations", .arr [.str "o1"])],
          .obj [("type", .str "entity"), ("name", .str "A"), ("entityType", .str "other"),
            ("observations", .arr [.str "x", .str "y"])],
          .obj [("type", .str "entity"), ("name", .str "B"), ("entityType", .str "t"),
            ("observations", .arr [])]]),
        ("relations", .arr [.str "kept"])]) ∧
    (∀ (rt : Runtime) (w : World) (ents rels : List Json) (es : List Entity)
        (rs : Option (List Relation)) (q : Option String),
      (dispatch rt w (.obj [("entities", .arr ents), ("relations", .arr rels)])
          "create_entities" ⟨some es, rs, q⟩).1 =
          .ok ⟨rt.stringify (.arr (es.map (fun e =>
            .obj [("name", .str e.name), ("entityType", .str e.entityType),
              ("observations", .arr (e.observations.map Json.str))])))⟩ ∧
        (dispatch rt w (.obj [("entities", .arr ents), ("relations", .arr rels)])
          "create_entities" ⟨some es, rs, q⟩).2.putLog =
          w.putLog ++ [rt.utf8Encode (rt.stringify
            (.obj [("entities", .arr (ents ++ es.map (fun e =>
                .obj [("type", .str "entity"), ("name", .str e.name),
                  ("entityType", .str e.entityType),
                  ("observations", .arr (e.observations.map Json.str))]))),
              ("relations", .arr rels)]))]) ∧
    (∀ (rt : Runtime) (w : World) (ents rels : List Json) (a b : Entity),
      putAccepted w →
      w.writeOk = true →
      (loadMemory rt w).1 = .ok (.obj [("entities", .arr ents), ("relations", .arr rels)]) →
      rt.parse (rt.stringify (.obj [("entities", .arr (ents ++ [a.toJson])),
          ("relations", .arr rels)])) =
        some (.obj [("entities", .arr (ents ++ [a.toJson])), ("relations", .arr rels)]) →
      rt.parse (rt.stringify (.obj [("entities", .arr (ents ++ [a.toJson, b.toJson])),
          ("relations", .arr rels)])) =
        some (.obj [("entities", .arr (ents ++ [a.toJson, b.toJson])),
          ("relations", .arr rels)]) →
      servesIntactOrFails rt w (rt.stringify
        (.obj [("entities", .arr (ents ++ [a.toJson])), ("relations", .arr rels)])) →
      servesIntactOrFails rt w (rt.stringify
        (.obj [("entities", .arr (ents ++ [a.toJson, b.toJson])), ("relations", .arr rels)])) →
      (handleCall rt
        (handleCall rt (handleCall rt w "create_entities" ⟨some [a], none, none⟩).2
          "create_entities" ⟨some [b], none, none⟩).2
        "read_graph" ⟨none, none, none⟩).1 =
        .ok ⟨rt.stringify (.obj [("entities", .arr (ents ++ [
            .obj [("type", .str "entity"), ("name", .str a.name),
              ("entityType", .str a.entityType),
              ("observations", .arr (a.observations.map Json.str))],
            .obj [("type", .str "entity"), ("name", .str b.name),
              ("entityType", .str b.entityType),
              ("observations", .arr (b.observations.map Json.str))]])),
          ("relations", .arr rels)])⟩) := by
  refine ⟨?_, rfl, ?_, ?_⟩
  · intro ents rels es
    exact createEntities_doc ents rels es
  · intro rt w ents rels es rs q
    rw [dispatch_create_entities]
    exact ⟨rfl, saveMemory_putLog rt w _⟩
  · intro rt w ents rels a b hp hw hload hrt1 hrt2 hget1 hget2
    exact create_twice_then_read rt w ents rels a b hp hw hload hrt1 hrt2 hget1 hget2

theorem create_entities_appends_witness :
    putAccepted onlineWorld ∧ onlineWorld.writeOk = true ∧
      (loadMemory refRuntime onlineWorld).1 =
        .ok (.obj [("entities", .arr []), ("relations", .arr [])]) ∧
      servesIntactOrFails refRuntime onlineWorld (refRuntime.stringify
        (.obj [("entities", .arr ([] ++ [entityA.toJson, entityA.toJson])),
          ("relations", .arr [])])) ∧
      (handleCall refRuntime
        (handleCall refRuntime
          (handleCall refRuntime onlineWorld "create_entities"
            ⟨some [entityA], none, none⟩).2
          "create_entities" ⟨some [entityA], none, none⟩).2
        "read_graph" ⟨none, none, none⟩).1 =
        .ok ⟨"\x7b\n  \"entities\": [\n    \x7b\n      \"type\": \"entity\",\n      \"name\": \"A\",\n      \"entityType\": \"t\",\n      \"observations\": [\n        \"o1\"\n      ]\n    \x7d,\n    \x7b\n      \"type\": \"entity\",\n      \"name\": \"A\",\n      \"entityType\": \"t\",\n      \"observations\": [\n        \"o1\"\n      ]\n    \x7d\n  ],\n  \"relations\": []\n\x7d"⟩ :=
  have hp : putAccepted onlineWorld := ⟨by decide, by decide⟩
  have h1 : servesIntactOrFails refRuntime onlineWorld (refRuntime.stringify
      (.obj [("entities", .arr ([] ++ [entityA.toJson])), ("relations", .arr [])])) := by
    show _ = _
    rfl
  have h2 : servesIntactOrFails refRuntime onlineWorld (refRuntime.stringify
      (.obj [("entities", .arr ([] ++ [entityA.toJson, entityA.toJson])),
        ("relations", .arr [])])) := by
    show _ = _
    rfl
  ⟨hp, rfl, rfl, h2,
    create_entities_appends.2.2.2 refRuntime onlineWorld [] [] entityA entityA hp rfl rfl
      rfl rfl h1 h2⟩

/-- C5 (as stated, refuted): under the default configuration `saveMemory` of a graph that
the runtime parses back reports failure, and the `loadMemory` that follows returns the
empty graph, which is not that graph. -/
theorem load_after_failed_save_counterexample :
    refRuntime.parse (refRuntime.stringify (Graph.toJson ⟨[entityA], []⟩)) =
        some (Graph.toJson ⟨[entityA], []⟩) ∧
      (loadMemory refRuntime
        (saveMemory refRuntime offlineWorld (Graph.toJson ⟨[entityA], []⟩)).2).1 =
        .ok emptyGraph ∧
      emptyGraph ≠ Graph.toJson ⟨[entityA], []⟩ :=
  ⟨rfl, rfl, by simp [emptyGraph, Graph.toJson]⟩

/-- C5 (amended): for every document `G` that the runtime parses back from its own
serialisation, if `saveMemory G` reports success and the remote get then fails or delivers
the stored text intact, the `loadMemory` that follows returns `G`. -/
theorem load_after_successful_save (rt : Runtime) (w : World) (G : Json)
    (hrt : rt.parse (rt.stringify G) = some G)
    (hs : (saveMemory rt w G).1 = .ok true)
    (hget : servesIntactOrFails rt w (rt.stringify G)) :
    (loadMemory rt (saveMemory rt w G).2).1 = .ok G := by
  obtain ⟨hp, hw⟩ := saveMemory_true rt w G hs
  rw [saveMemory_accepted rt w G hp hw, loadMemory_eq]
  unfold servesIntactOrFails at hget
  simp only [loadMemorySpec, remoteGet]
  cases hf : w.getFault with
  | none =>
    rw [hf] at hget
    simp only at hget
    simp only [downloadResult, hget, hrt, if_true]
    cases hm : w.mkdirOk <;> simp [hw]
  | some o =>
    rw [hf] at hget
    obtain ⟨e, he⟩ := hget
    simp [he, hrt]

theorem load_after_successful_save_witness :
    refRuntime.parse (refRuntime.stringify (Graph.toJson ⟨[entityA, entityB], []⟩)) =
        some (Graph.toJson ⟨[entityA, entityB], []⟩) ∧
      (saveMemory refRuntime onlineWorld (Graph.toJson ⟨[entityA, entityB], []⟩)).1 =
        .ok true ∧
      servesIntactOrFails refRuntime onlineWorld
        (refRuntime.stringify (Graph.toJson ⟨[entityA, entityB], []⟩)) ∧
      (loadMemory refRuntime
        (saveMemory refRuntime onlineWorld (Graph.toJson ⟨[entityA, entityB], []⟩)).2).1 =
        .ok (.obj [("entities", .arr [
            .obj [("type", .str "entity"), ("name", .str "A"), ("entityType", .str "t"),
              ("observations", .arr [.str "o1"])],
            .obj [("type", .str "entity"), ("name", .str "B"), ("entityType", .str "t"),
              ("observations", .arr [])]]),
          ("relations", .arr [])]) :=
  have hg : servesIntactOrFails refRuntime onlineWorld
      (refRuntime.stringify (Graph.toJson ⟨[entityA, entityB], []⟩)) := by
    show _ = _
    rfl
  ⟨rfl, rfl, hg, load_after_successful_save refRuntime onlineWorld _ rfl rfl hg⟩

/-- When a chunk boundary falls inside the two-byte character of `café`, the save reports
success, the text is not delivered intact, and the `loadMemory` that follows returns a graph
whose entity is named `caf` followed by two replacement characters. -/
theorem load_after_save_cut_character :
    refRuntime.parse (refRuntime.stringify (Graph.toJson ⟨[cafe], []⟩)) =
        some (Graph.toJson ⟨[cafe], []⟩) ∧
      (saveMemory refRuntime choppyWorld (Graph.toJson ⟨[cafe], []⟩)).1 = .ok true ∧
      ¬ servesIntactOrFails refRuntime choppyWorld
        (refRuntime.stringify (Graph.toJson ⟨[cafe], []⟩)) ∧
      (loadMemory refRuntime
        (saveMemory refRuntime choppyWorld (Graph.toJson ⟨[cafe], []⟩)).2).1 =
        .ok (.obj [("entities", .arr [
            .obj [("type", .str "entity"),
              ("name", .str (String.mk ['c', 'a', 'f', Char.ofNat 65533, Char.ofNat 65533])),
              ("entityType", .str "t"), ("observations", .arr [])]]),
          ("relations", .arr [])]) := by
  refine ⟨rfl, rfl, ?_, rfl⟩
  show ¬ (_ = _)
  decide

/-- C6 (as stated, refuted): under the default configuration the `saveMemory` of a
`create_entities` call reports failure, yet the call returns the echo of the accepted
entities and not a failure. -/
theorem create_entities_failed_save_counterexample :
    (loadMemory refRuntime offlineWorld).1 = .ok emptyGraph ∧
      createEntities emptyGraph [entityA] = .ok (Graph.toJson ⟨[entityA], []⟩) ∧
      (saveMemory refRuntime (loadMemory refRuntime offlineWorld).2
        (Graph.toJson ⟨[entityA], []⟩)).1 = .ok false ∧
      (handleCall refRuntime offlineWorld "create_entities" ⟨some [entityA], none, none⟩).1 =
        .ok ⟨refRuntime.stringify (.arr [entityA.toArg])⟩ :=
  ⟨rfl, rfl, rfl, rfl⟩

/-- C6 (amended): whenever the `switch` of the handler fails on the loaded document, the
call fails with the single message `Tool execution failed: <cause>` and returns no payload,
and every failure of a call arises that way; a name that is none of the four tools is such a
failure; `loadMemory` and `saveMemory` themselves never raise. -/
theorem handleCall_failure_is_generic :
    (∀ (rt : Runtime) (w : World) (name : String) (args : Args) (cause : JsError),
      (dispatch rt (worldAfterLoad rt w) (loadMemorySpec rt w) name args).1 = .error cause →
      (handleCall rt w name args).1 =
        .error ⟨"Tool execution failed: " ++ cause.message⟩) ∧
    (∀ (rt : Runtime) (w : World) (name : String) (args : Args) (e : JsError),
      (handleCall rt w name args).1 = .error e →
      ∃ cause,
        (dispatch rt (worldAfterLoad rt w) (loadMemorySpec rt w) name args).1 = .error cause ∧
        e = ⟨"Tool execution failed: " ++ cause.message⟩) ∧
    (∀ (rt : Runtime) (w : World) (memory : Json) (name : String) (args : Args),
      name ∉ toolNames →
      dispatch rt w memory name args = (.error ⟨"Unknown tool: " ++ name⟩, w)) ∧
    (∀ (rt : Runtime) (w : World), ∃ d, (loadMemory rt w).1 = .ok d) ∧
    (∀ (rt : Runtime) (w : World) (G : Json), ∃ b, (saveMemory rt w G).1 = .ok b) := by
  refine ⟨?_, ?_, ?_, ?_, ?_⟩
  · intro rt w name args cause h
    simp only [handleCall, loadMemory_eq]
    cases hd : dispatch rt (worldAfterLoad rt w) (loadMemorySpec rt w) name args with
    | mk r w2 =>
      rw [hd] at h
      simp only at h
      subst h
      rfl
  · intro rt w name args e h
    simp only [handleCall, loadMemory_eq] at h
    cases hd : dispatch rt (worldAfterLoad rt w) (loadMemorySpec rt w) name args with
    | mk r w2 =>
      rw [hd] at h
      cases r with
      | error c =>
        simp only [Except.error.injEq] at h
        exact ⟨c, rfl, h.symm⟩
      | ok v => simp at h
  · intro rt w memory name args hn
    simp only [toolNames, List.mem_cons, List.mem_singleton, List.not_mem_nil, or_false,
      not_or] at hn
    obtain ⟨h1, h2, h3, h4⟩ := hn
    simp [dispatch, h1, h2, h3, h4]
  · intro rt w
    exact ⟨_, by rw [loadMemory_eq]⟩
  · intro rt w G
    exact saveMemory_total rt w G

theorem handleCall_failure_is_generic_witness :
    (dispatch refRuntime (worldAfterLoad refRuntime onlineWorld)
        (loadMemorySpec refRuntime onlineWorld) "delete_entities" noArgs).1 =
        .error ⟨"Unknown tool: delete_entities"⟩ ∧
      (handleCall refRuntime onlineWorld "delete_entities" noArgs).1 =
        .error ⟨"Tool execution failed: Unknown tool: delete_entities"⟩ ∧
      (handleCall refRuntime onlineWorld "search_nodes" noArgs).1 =
        .error ⟨"Tool execution failed: Cannot read properties of undefined (reading 'toLowerCase')"⟩ :=
  ⟨rfl,
    handleCall_failure_is_generic.1 refRuntime onlineWorld "delete_entities" noArgs
      ⟨"Unknown tool: delete_entities"⟩ rfl,
    handleCall_failure_is_generic.1 refRuntime onlineWorld "search_nodes" noArgs
      ⟨"Cannot read properties of undefined (reading 'toLowerCase')"⟩ rfl⟩

/-- C7: for the remote get, status 404 yields the empty graph; status 200 with a body
(the text accumulated from its chunks) that does not parse yields the empty graph; status
200 with a body that parses yields the parsed document; every other status and every
transport failure yields a failure. The world is left as it is. -/
theorem downloadFromOracle_outcomes (rt : Runtime) (w : World) :
    (∀ chunks, remoteGet w = .response 404 chunks →
      downloadFromOracle rt w = (.ok emptyGraph, w)) ∧
    (∀ chunks, remoteGet w = .response 200 chunks →
      rt.parse (accumulate rt chunks) = none →
      downloadFromOracle rt w = (.ok emptyGraph, w)) ∧
    (∀ chunks doc, remoteGet w = .response 200 chunks →
      rt.parse (accumulate rt chunks) = some doc →
      downloadFromOracle rt w = (.ok doc, w)) ∧
    (∀ statusCode chunks, remoteGet w = .response statusCode chunks →
      statusCode ≠ 200 → statusCode ≠ 404 →
      downloadFromOracle rt w = (.error ⟨"Download failed: " ++ toString statusCode⟩, w)) ∧
    (∀ m, remoteGet w = .failure m → downloadFromOracle rt w = (.error ⟨m⟩, w)) := by
  refine ⟨?_, ?_, ?_, ?_, ?_⟩
  · intro chunks h
    simp [downloadFromOracle, downloadResult, h]
  · intro chunks h hp
    simp [downloadFromOracle, downloadResult, h, hp]
  · intro chunks doc h hp
    simp [downloadFromOracle, downloadResult, h, hp]
  · intro s chunks h h1 h2
    simp [downloadFromOracle, downloadResult, h, h1, h2]
  · intro m h
    simp [downloadFromOracle, downloadResult, h]

theorem downloadFromOracle_outcomes_witness :
    (remoteGet onlineWorld = .response 404 [] ∧
      downloadFromOracle refRuntime onlineWorld = (.ok emptyGraph, onlineWorld)) ∧
    (remoteGet { onlineWorld with remoteObj := some (Ref.utf8Encode "\x7b oops") } =
        .response 200 [Ref.utf8Encode "\x7b oops"] ∧
      accumulate refRuntime [Ref.utf8Encode "\x7b oops"] = "\x7b oops" ∧
      refRuntime.parse "\x7b oops" = none ∧
      downloadFromOracle refRuntime
          { onlineWorld with remoteObj := some (Ref.utf8Encode "\x7b oops") } =
        (.ok emptyGraph, { onlineWorld with remoteObj := some (Ref.utf8Encode "\x7b oops") })) ∧
    (remoteGet { onlineWorld with remoteObj := some (Ref.utf8Encode "[null,  \"0123456789\"]") } =
        .response 200 [Ref.utf8Encode "[null,  \"0123456", Ref.utf8Encode "789\"]"] ∧
      refRuntime.parse "[null,  \"0123456789\"]" = some (.arr [.null, .str "0123456789"]) ∧
      downloadFromOracle refRuntime
          { onlineWorld with remoteObj := some (Ref.utf8Encode "[null,  \"0123456789\"]") } =
        (.ok (.arr [.null, .str "0123456789"]),
          { onlineWorld with remoteObj := some (Ref.utf8Encode "[null,  \"0123456789\"]") })) ∧
    (remoteGet brokenWorld = .response 500 [[111, 111], [112, 115]] ∧
      downloadFromOracle refRuntime brokenWorld =
        (.error ⟨"Download failed: 500"⟩, brokenWorld)) ∧
    (remoteGet offlineWorld = .failure "Invalid URL" ∧
      downloadFromOracle refRuntime offlineWorld = (.error ⟨"Invalid URL"⟩, offlineWorld)) :=
  ⟨⟨rfl, (downloadFromOracle_outcomes refRuntime onlineWorld).1 [] rfl⟩,
    ⟨rfl, rfl, rfl, (downloadFromOracle_outcomes refRuntime _).2.1 _ rfl rfl⟩,
    ⟨rfl, rfl, (downloadFromOracle_outcomes refRuntime _).2.2.1 _ _ rfl rfl⟩,
    ⟨rfl, (downloadFromOracle_outcomes refRuntime brokenWorld).2.2.2.1 500 _ rfl
      (by decide) (by decide)⟩,
    ⟨rfl, (downloadFromOracle_outcomes refRuntime offlineWorld).2.2.2.2 "Invalid URL" rfl⟩⟩

/-- C8: `read_graph` sends no remote put and leaves the stored remote object as it is, and
a second `read_graph` right after the first, in the world the first one left, returns the
same payload (and leaves that world unchanged). -/
theorem read_graph_idempotent (rt : Runtime) (w : World) (args1 args2 : Args) :
    (handleCall rt w "read_graph" args1).2.putLog = w.putLog ∧
      (handleCall rt w "read_graph" args1).2.remoteObj = w.remoteObj ∧
      (∃ text, (handleCall rt w "read_graph" args1).1 = .ok ⟨text⟩) ∧
      handleCall rt (handleCall rt w "read_graph" args1).2 "read_graph" args2 =
        handleCall rt w "read_graph" args1 := by
  obtain ⟨h1, -, -, h4, -, -, -⟩ := worldAfterLoad_frame rt w
  have hi := loadMemory_idem rt w
  rw [loadMemory_eq rt w] at hi
  simp only at hi
  rw [loadMemory_eq] at hi
  simp only [handleCall_read_graph]
  refine ⟨h4, h1, ⟨_, rfl⟩, ?_⟩
  simp only [Prod.mk.injEq, Except.ok.injEq] at hi
  rw [hi.1, hi.2]

/-- C9: on a loaded graph document with entities `ents` and relations `rels`,
`create_relations` produces the document whose relations are `rels`, untouched and in order,
followed by one record per new relation in the given order, holding the tag `relation` and
that relation's own `from`, `to` and `relationType`, with `ents` unchanged and never looked
at: the call succeeds with the echo of its arguments whether or not the names occur among
the entities, and sends exactly that document to the store. A relation between names that
are not entities, given twice, is appended twice. -/
theorem create_relations_appends :
    (∀ (ents rels : List Json) (rs : List Relation),
      createRelations (.obj [("entities", .arr ents), ("relations", .arr rels)]) rs =
        .ok (.obj [("entities", .arr ents),
          ("relations", .arr (rels ++ rs.map (fun r =>
            .obj [("type", .str "relation"), ("from", .str r.src), ("to", .str r.dst),
              ("relationType", .str r.relationType)])))])) ∧
    createRelations
        (.obj [("entities", .arr [.obj [("type", .str "entity"), ("name", .str "A"),
            ("entityType", .str "t"), ("observations", .arr [])]]),
          ("relations", .arr [.obj [("type", .str "relation"), ("from", .str "A"),
            ("to", .str "A"), ("relationType", .str "is")]])])
        [⟨"Ghost", "A", "haunts"⟩, ⟨"X", "Y", "knows"⟩, ⟨"X", "Y", "knows"⟩] =
      .ok (.obj [("entities", .arr [.obj [("type", .str "entity"), ("name", .str "A"),
          ("entityType", .str "t"), ("observations", .arr [])]]),
        ("relations", .arr [
          .obj [("type", .str "relation"), ("from", .str "A"), ("to", .str "A"),
            ("relationType", .str "is")],
          .obj [("type", .str "relation"), ("from", .str "Ghost"), ("to", .str "A"),
            ("relationType", .str "haunts")],
          .obj [("type", .str "relation"), ("from", .str "X"), ("to", .str "Y"),
            ("relationType", .str "knows")],
          .obj [("type", .str "relation"), ("from", .str "X"), ("to", .str "Y"),
            ("relationType", .str "knows")]])]) ∧
    (∀ (rt : Runtime) (w : World) (ents rels : List Json) (rs : List Relation)
        (es : Option (List Entity)) (q : Option String),
      (dispatch rt w (.obj [("entities", .arr ents), ("relations", .arr rels)])
          "create_relations" ⟨es, some rs, q⟩).1 =
          .ok ⟨rt.stringify (.arr (rs.map (fun r =>
            .obj [("from", .str r.src), ("to", .str r.dst),
              ("relationType", .str r.relationType)])))⟩ ∧
        (dispatch rt w (.obj [("entities", .arr ents), ("relations", .arr rels)])
          "create_relations" ⟨es, some rs, q⟩).2.putLog =
          w.putLog ++ [rt.utf8Encode (rt.stringify
            (.obj [("entities", .arr ents),
              ("relations", .arr (rels ++ rs.map (fun r =>
                .obj [("type", .str "relation"), ("from", .str r.src), ("to", .str r.dst),
                  ("relationType", .str r.relationType)])))]))]) ∧
    (handleCall refRuntime offlineWorld "create_relations"
        ⟨none, some [⟨"Ghost", "A", "haunts"⟩], none⟩).1 =
      .ok ⟨"[\n  \x7b\n    \"from\": \"Ghost\",\n    \"to\": \"A\",\n    \"relationType\": \"haunts\"\n  \x7d\n]"⟩ := by
  refine ⟨?_, rfl, ?_, rfl⟩
  · intro ents rels rs
    exact createRelations_doc ents rels rs
  · intro rt w ents rels rs es q
    rw [dispatch_create_relations]
    exact ⟨rfl, saveMemory_putLog rt w _⟩

/-- C10: if the remote get answers 404, or 200 with a body that is not valid JSON, and the
local directory and file can be written, `loadMemory` returns the empty graph and the local
file afterwards holds the serialised empty graph, whatever it held before; nothing else in
the world changes. -/
theorem loadMemory_overwrites_cache (rt : Runtime) (w : World)
    (hget : remoteAbsentOrCorrupt rt w) (hmk : w.mkdirOk = true) (hwr : w.writeOk = true) :
    loadMemory rt w =
      (.ok emptyGraph, { w with localFile := some (rt.stringify emptyGraph) }) := by
  unfold remoteAbsentOrCorrupt at hget
  unfold loadMemory downloadFromOracle downloadResult fsMkdir fsWriteFile
  cases hg : remoteGet w with
  | failure m => simp [hg] at hget
  | response s body =>
    rw [hg] at hget
    rcases hget with h | ⟨h, hp⟩
    · subst h
      simp [hmk, hwr]
    · subst h
      simp [hp, hmk, hwr]

theorem loadMemory_overwrites_cache_witness :
    remoteAbsentOrCorrupt refRuntime staleWorld ∧
      (loadLocal refRuntime staleWorld).1 = .ok (Graph.toJson ⟨[⟨"old", "t", []⟩], []⟩) ∧
      loadMemory refRuntime staleWorld =
        (.ok emptyGraph,
          { staleWorld with localFile := some (refRuntime.stringify emptyGraph) }) :=
  have h : remoteAbsentOrCorrupt refRuntime staleWorld := by
    simp [remoteAbsentOrCorrupt, remoteGet, staleWorld]
  ⟨h, rfl, loadMemory_overwrites_cache refRuntime staleWorld h rfl rfl⟩

end OracleMemory
